import Mathlib

/-!
Verification of the criteria data portal backend: principals and the role
authorization gates, the admin all-files aggregation pipeline, the criteria
router dispatch, and the server error handling chain, with theorems settling
the frozen behavioural claims against these definitions.
-/

namespace Naac

/-- A verified request principal: identity, role and school, attached to the
request context by the authentication middleware. -/
structure Principal where
  userId : String
  role : String
  school : String
deriving DecidableEq, Repr

/-- Outcome of an authorization middleware: pass the request on to the
handler, or end it at once with a status code and message. -/
inductive AuthDecision where
  | next : AuthDecision
  | deny : Nat → String → AuthDecision
deriving DecidableEq, Repr

/-- True when the decision lets the request reach the handler. -/
def AuthDecision.passes : AuthDecision → Bool
  | .next => true
  | .deny _ _ => false

/-- The inline admin gate defined in routes/admin.js: it denies with 403 when
no user is attached to the request or when the attached role differs from
admin, and otherwise calls the next handler. -/
def adminAuth (user : Option Principal) : AuthDecision :=
  match user with
  | none => .deny 403 ("Admin access required")
  | some p => if p.role ≠ "admin" then .deny 403 ("Admin access required") else .next

/-- Modelled from the spec: the roleAuth middleware. Its module
middleware/roleAuth.js is not among the sources; section 4.2 of the spec
defines the gate: admit exactly when the principal is present and its role
belongs to the declared required role set, otherwise deny with Forbidden
(403). The criteria routes pass no school scope to this gate. -/
def roleAuth (requiredRoles : List String) (user : Option Principal) : AuthDecision :=
  match user with
  | none => .deny 403 ("Forbidden")
  | some p => if p.role ∈ requiredRoles then .next else .deny 403 ("Forbidden")

/-- An attachment descriptor inside the files list of a criteria record. -/
structure FileAttachment where
  url : String
  originalName : String
  size : Nat
deriving DecidableEq, Repr

/-- A criteria record as stored in the criteria collection, with the fields
the aggregations read. -/
structure CriteriaRecord where
  userId : String
  school : String
  criteriaNumber : Nat
  metricNumber : Nat
  files : List FileAttachment
  status : String
  createdAt : Nat
deriving DecidableEq, Repr

/-- A row of the users collection, as read by the lookup stage. -/
structure User where
  id : String
  name : String
  email : String
deriving DecidableEq, Repr

/-- The persistent state the aggregations read: the criteria collection and
the users collection. -/
structure Store where
  criteria : List CriteriaRecord
  users : List User
deriving DecidableEq, Repr

/-- One document produced by the project stage of the admin files pipeline:
the record fields kept by the projection, joined to the owner identity. -/
structure AdminFileEntry where
  criteriaNumber : Nat
  metricNumber : Nat
  files : List FileAttachment
  status : String
  createdAt : Nat
  userId : String
  userName : String
  userEmail : String
deriving DecidableEq, Repr

/-- The lookup stage of the pipeline: the users whose id equals the owner id
stored on the record. -/
def lookupUsers (users : List User) (uid : String) : List User :=
  users.filter (fun u => u.id = uid)

/-- The project stage of the pipeline applied to one record and one joined
user. -/
def projectEntry (r : CriteriaRecord) (u : User) : AdminFileEntry :=
  ⟨r.criteriaNumber, r.metricNumber, r.files, r.status, r.createdAt, u.id, u.name, u.email⟩

/-- Code point comparison of character lists, the order the sort stage uses on
owner names. -/
def charListLe : List Char → List Char → Bool
  | [], _ => true
  | _ :: _, [] => false
  | a :: as, b :: bs =>
    if a.toNat < b.toNat then true
    else if b.toNat < a.toNat then false
    else charListLe as bs

/-- Code point comparison of two strings. -/
def strLe (s t : String) : Bool := charListLe s.data t.data

/-- The sort key of the sort stage: criteriaNumber ascending, then owner name
ascending. -/
def entryLe (a b : AdminFileEntry) : Prop :=
  a.criteriaNumber < b.criteriaNumber ∨
    (a.criteriaNumber = b.criteriaNumber ∧ strLe a.userName b.userName = true)

instance : DecidableRel entryLe := fun a b => by unfold entryLe; infer_instance

/-- The admin files aggregation of routes/admin.js: keep the records whose
files list is non-empty, look the owner up in the users collection, unwind the
matches, project the kept fields together with the owner identity, and sort by
criteriaNumber then owner name, with a stable sort. -/
def allFilesAcrossUsers (s : Store) : List AdminFileEntry :=
  List.insertionSort entryLe
    ((s.criteria.filter (fun r => !r.files.isEmpty)).flatMap
      (fun r => (lookupUsers s.users r.userId).map (projectEntry r)))

/-- The JSON response envelope the endpoints write. -/
structure Reply (α : Type) where
  status : Nat
  success : Bool
  message : Option String
  data : Option α
  count : Option Nat
deriving DecidableEq, Repr

/-- The GET files endpoint of routes/admin.js: the authentication middleware
attaches an optional principal, the adminAuth gate runs, and only on admit is
the aggregation queried and returned with its length as count. -/
def adminFilesEndpoint (user : Option Principal) (s : Store) : Reply (List AdminFileEntry) :=
  match adminAuth user with
  | .deny st m => ⟨st, false, some m, none, none⟩
  | .next =>
    let d := allFilesAcrossUsers s
    ⟨200, true, none, some d, some d.length⟩

/-- Submitted or any later status of the record state machine of the spec. -/
def submittedOrLater (st : String) : Bool :=
  st = "submitted" || st = "reviewed" || st = "rejected"

/-- Summary row of the users-with-data aggregation: a user together with the
count and list of qualifying records. -/
structure UserDataSummary where
  userId : String
  count : Nat
  records : List CriteriaRecord
deriving DecidableEq, Repr

/-- Modelled from the spec: the getAllUsersWithData handler. Its module
controllers/criteriaController.js is not among the sources; section 4.5 of the
spec defines usersWithSubmittedData: per user, the count and list of records
whose status is submitted or later; users with no such record are omitted. -/
def usersWithSubmittedData (s : Store) : List UserDataSummary :=
  (s.users.map (fun u =>
    UserDataSummary.mk u.id
      (s.criteria.filter (fun r => r.userId = u.id && submittedOrLater r.status)).length
      (s.criteria.filter (fun r => r.userId = u.id && submittedOrLater r.status)))).filter
    (fun row => !row.records.isEmpty)

/-- The GET admin/users endpoint of the criteria router: the route registers
roleAuth with the single required role admin ahead of the handler. -/
def adminUsersEndpoint (user : Option Principal) (s : Store) : Reply (List UserDataSummary) :=
  match roleAuth ["admin"] user with
  | .deny st m => ⟨st, false, some m, none, none⟩
  | .next =>
    let d := usersWithSubmittedData s
    ⟨200, true, none, some d, some d.length⟩

/-- Modelled from the spec: the getSchoolData handler. Its module
controllers/criteriaController.js is not among the sources; section 4.5 of the
spec defines schoolData: all records of the requested school grouped by
owner. -/
def schoolRecordsByOwner (school : String) (s : Store) : List (String × List CriteriaRecord) :=
  (((s.criteria.filter (fun r => r.school = school)).map
      (fun r => r.userId)).eraseDups).map
    (fun uid => (uid, s.criteria.filter (fun r => r.school = school && r.userId = uid)))

/-- The GET school endpoint as registered in the criteria router: the route
applies roleAuth with the single required role admin ahead of the handler; the
imported schoolAuth middleware is not used on this route. -/
def schoolDataEndpoint (school : String) (user : Option Principal) (s : Store) :
    Reply (List (String × List CriteriaRecord)) :=
  match roleAuth ["admin"] user with
  | .deny st m => ⟨st, false, some m, none, none⟩
  | .next =>
    let d := schoolRecordsByOwner school s
    ⟨200, true, none, some d, some d.length⟩

/-- Handlers the criteria router can dispatch to. -/
inductive Handler where
  | saveCriteriaData
  | getAllUsersWithData
  | getSchoolData
  | submitCriteriaData
  | getCriteriaData
deriving DecidableEq, Repr

/-- HTTP methods used by the criteria router. -/
inductive Method where
  | get
  | post
  | put
deriving DecidableEq, Repr

/-- One segment of a route pattern: a literal, or a named parameter that
matches any single non-empty path segment. -/
inductive Seg where
  | lit : String → Seg
  | param : String → Seg
deriving DecidableEq, Repr

/-- Express path matching over segment lists. -/
def matchPath : List Seg → List String → Bool
  | [], [] => true
  | .lit l :: ps, s :: ss => l = s && matchPath ps ss
  | .param _ :: ps, s :: ss => !(s = "") && matchPath ps ss
  | _, _ => false

/-- A registered route of the criteria router. -/
structure Route where
  method : Method
  pattern : List Seg
  handler : Handler
deriving DecidableEq, Repr

/-- The criteria router of routes/criteria.js, in registration order: save,
admin/users, school, submit, then the catch-all single criteria route. -/
def criteriaRoutes : List Route :=
  [ ⟨Method.post, [Seg.lit ("save")], Handler.saveCriteriaData⟩,
    ⟨Method.get, [Seg.lit ("admin"), Seg.lit ("users")], Handler.getAllUsersWithData⟩,
    ⟨Method.get, [Seg.lit ("school"), Seg.param ("school")], Handler.getSchoolData⟩,
    ⟨Method.put, [Seg.lit ("submit"), Seg.param ("id")], Handler.submitCriteriaData⟩,
    ⟨Method.get, [Seg.param ("criteriaNumber")], Handler.getCriteriaData⟩ ]

/-- Express dispatch: the first registered route whose method and pattern
match the request wins. -/
def dispatch (m : Method) (path : List String) : Option Handler :=
  (criteriaRoutes.find? (fun r => r.method = m && matchPath r.pattern path)).map
    (fun r => r.handler)

/-- An error value reaching the express error handling chain, with the fields
the middleware of server.js inspects. -/
structure JsError where
  isMulterError : Bool
  multerCode : String
  name : String
  message : String
  code : Option Nat
  keyValueFields : List String
  validationMessages : List String
  stack : String
deriving DecidableEq, Repr

/-- A response written by an error handling middleware; the error fields hold
the diagnostic detail that only the development environment echoes. -/
structure ErrReply where
  status : Nat
  success : Bool
  message : String
  timestamp : Option String
  errorName : Option String
  errorMessage : Option String
  errorStack : Option String
deriving DecidableEq, Repr

/-- Whether the second character list occurs at the head of the first. -/
def startsWithChars : List Char → List Char → Bool
  | _, [] => true
  | [], _ :: _ => false
  | a :: as, b :: bs => a = b && startsWithChars as bs

/-- Whether the second character list occurs anywhere inside the first. -/
def containsChars : List Char → List Char → Bool
  | [], pat => pat.isEmpty
  | a :: as, pat => startsWithChars (a :: as) pat || containsChars as pat

/-- The includes test of JavaScript strings, as used on error messages. -/
def jsIncludes (s pat : String) : Bool := containsChars s.data pat.data

/-- The multer error handling middleware: multer errors answered by code, then
messages that mention an invalid file type; anything else passes on. -/
def multerStep (e : JsError) : Option ErrReply :=
  if e.isMulterError then
    if e.multerCode = "LIMIT_FILE_SIZE" then
      some ⟨400, false, "File too large. Maximum size is 10MB.", none, none, none, none⟩
    else if e.multerCode = "LIMIT_UNEXPECTED_FILE" then
      some ⟨400, false, "Unexpected field name. Expected \"file\".", none, none, none, none⟩
    else if e.multerCode = "LIMIT_FILE_COUNT" then
      some ⟨400, false, "Too many files. Only 1 file allowed per upload.", none, none, none, none⟩
    else if e.multerCode = "LIMIT_PART_COUNT" then
      some ⟨400, false, "Too many form parts.", none, none, none, none⟩
    else
      some ⟨400, false, "Upload error: " ++ e.message, none, none, none, none⟩
  else if jsIncludes e.message ("Invalid file type") then
    some ⟨400, false, e.message, none, none, none, none⟩
  else
    none

/-- The cloudinary error handling middleware. -/
def cloudinaryStep (e : JsError) : Option ErrReply :=
  if e.name = "CloudinaryError" then
    some ⟨500, false, "Cloud storage error. Please try again later.", none, none, none, none⟩
  else
    none

/-- The database error handling middleware: connection errors matched by name
first, then validation errors, then cast errors, then duplicate key errors by
code 11000. -/
def databaseStep (e : JsError) : Option ErrReply :=
  if e.name = "MongoError" ∨ e.name = "MongooseError" ∨ e.name = "MongoNetworkError" then
    some ⟨500, false, "Database connection error. Please try again.", none, none, none, none⟩
  else if e.name = "ValidationError" then
    some ⟨400, false, "Validation error: " ++ String.intercalate (", ") e.validationMessages,
      none, none, none, none⟩
  else if e.name = "CastError" then
    some ⟨400, false, "Invalid ID format", none, none, none, none⟩
  else if e.code = some 11000 then
    some ⟨400, false, "Duplicate " ++ e.keyValueFields.headD ("undefined") ++ " value entered",
      none, none, none, none⟩
  else
    none

/-- The JWT error handling middleware. -/
def jwtStep (e : JsError) : Option ErrReply :=
  if e.name = "JsonWebTokenError" then
    some ⟨401, false, "Invalid authentication token", none, none, none, none⟩
  else if e.name = "TokenExpiredError" then
    some ⟨401, false, "Authentication token has expired", none, none, none, none⟩
  else
    none

/-- The generic error handling middleware, registered last: when headers were
already sent it passes the error on without replying; otherwise it writes a
500 reply whose diagnostic detail appears only in the development
environment. -/
def genericStep (env now : String) (headersSent : Bool) (e : JsError) : Option ErrReply :=
  if headersSent then
    none
  else if env = "development" then
    some ⟨500, false, "Internal server error", some now, some e.name, some e.message, some e.stack⟩
  else
    some ⟨500, false, "Internal server error", some now, none, none, none⟩

/-- The full error handling chain of server.js, in registration order: multer,
cloudinary, database, JWT, then the generic handler. -/
def errorChain (env now : String) (headersSent : Bool) (e : JsError) : Option ErrReply :=
  match multerStep e with
  | some r => some r
  | none =>
    match cloudinaryStep e with
    | some r => some r
    | none =>
      match databaseStep e with
      | some r => some r
      | none =>
        match jwtStep e with
        | some r => some r
        | none => genericStep env now headersSent e

end Naac

namespace Naac

/-- Totality of the code point order on character lists. -/
theorem charListLe_total : ∀ xs ys : List Char, charListLe xs ys = true ∨ charListLe ys xs = true := by
  intro xs
  induction xs with
  | nil => intro ys; left; simp [charListLe]
  | cons a as ih =>
    intro ys
    cases ys with
    | nil => right; simp [charListLe]
    | cons b bs =>
      simp only [charListLe]
      rcases Nat.lt_trichotomy a.toNat b.toNat with h | h | h
      · left; simp [h]
      · have h1 : ¬ a.toNat < b.toNat := by omega
        have h2 : ¬ b.toNat < a.toNat := by omega
        rcases ih bs with h3 | h3
        · left; simp [h1, h2, h3, h]
        · right; simp [h1, h2, h3, h]
      · right; simp [h, Nat.lt_asymm h]

/-- Transitivity of the code point order on character lists. -/
theorem charListLe_trans :
    ∀ xs ys zs : List Char,
      charListLe xs ys = true → charListLe ys zs = true → charListLe xs zs = true := by
  intro xs
  induction xs with
  | nil => intro ys zs _ _; simp [charListLe]
  | cons a as ih =>
    intro ys zs h1 h2
    cases ys with
    | nil => simp [charListLe] at h1
    | cons b bs =>
      cases zs with
      | nil => simp [charListLe] at h2
      | cons c cs =>
        simp only [charListLe] at h1 h2 ⊢
        by_cases hab : a.toNat < b.toNat <;> by_cases hbc : b.toNat < c.toNat <;>
          by_cases hba : b.toNat < a.toNat <;> by_cases hcb : c.toNat < b.toNat <;>
          simp_all <;> try omega
        · have hac : ¬ a.toNat < c.toNat := by omega
          have hca : ¬ c.toNat < a.toNat := by omega
          simp [hac, hca]
          exact ⟨by omega, ih bs cs h1 h2⟩

instance : IsTotal AdminFileEntry entryLe := ⟨by
  intro a b
  rcases Nat.lt_trichotomy a.criteriaNumber b.criteriaNumber with h | h | h
  · exact Or.inl (Or.inl h)
  · rcases charListLe_total a.userName.data b.userName.data with h2 | h2
    · exact Or.inl (Or.inr ⟨h, h2⟩)
    · exact Or.inr (Or.inr ⟨h.symm, h2⟩)
  · exact Or.inr (Or.inl h)⟩

instance : IsTrans AdminFileEntry entryLe := ⟨by
  intro a b c hab hbc
  rcases hab with h1 | ⟨h1, h1s⟩
  · rcases hbc with h2 | ⟨h2, _⟩
    · exact Or.inl (h1.trans h2)
    · exact Or.inl (h2 ▸ h1)
  · rcases hbc with h2 | ⟨h2, h2s⟩
    · exact Or.inl (h1 ▸ h2)
    · exact Or.inr ⟨h1.trans h2, charListLe_trans _ _ _ h1s h2s⟩⟩

/-- Membership in the all files view: exactly the joins of a record with a
non-empty files list to a user carrying the owner id. -/
theorem mem_allFilesAcrossUsers (s : Store) (e : AdminFileEntry) :
    e ∈ allFilesAcrossUsers s ↔
      ∃ r ∈ s.criteria, r.files ≠ [] ∧ ∃ u ∈ s.users, u.id = r.userId ∧ e = projectEntry r u := by
  unfold allFilesAcrossUsers
  rw [(List.perm_insertionSort entryLe _).mem_iff]
  simp only [List.mem_flatMap, List.mem_filter, List.mem_map, lookupUsers, decide_eq_true_eq,
    Bool.not_eq_true', List.isEmpty_eq_false]
  constructor
  · rintro ⟨r, ⟨hr, hf⟩, u, ⟨hu, hid⟩, he⟩
    exact ⟨r, hr, hf, u, hu, hid, he.symm⟩
  · rintro ⟨r, hr, hf, u, hu, hid, he⟩
    exact ⟨r, ⟨hr, hf⟩, u, ⟨hu, hid⟩, he.symm⟩

end Naac

namespace Naac

/-- Demonstration users collection for concrete evaluations. -/
def aliceUser : User := ⟨"u1", "Alice", "alice@portal.example"⟩

/-- Demonstration users collection for concrete evaluations. -/
def bobUser : User := ⟨"u2", "Bob", "bob@portal.example"⟩

/-- Demonstration record with a non-empty files list. -/
def rec1 : CriteriaRecord := ⟨"u1", "Lincoln High", 2, 1, [⟨"http://blob/f", "f.pdf", 10⟩], "submitted", 5⟩

/-- Demonstration record with a non-empty files list and a smaller criteria number. -/
def rec2 : CriteriaRecord := ⟨"u2", "Eastview", 1, 1, [⟨"http://blob/g", "g.pdf", 11⟩], "draft", 6⟩

/-- Demonstration record with an empty files list. -/
def rec3 : CriteriaRecord := ⟨"u2", "Eastview", 1, 2, [], "draft", 7⟩

/-- Demonstration store: three records over two users. -/
def demoStore : Store := ⟨[rec1, rec2, rec3], [aliceUser, bobUser]⟩

/-- Claim C1: the school data route as registered admits only the admin role,
so a school_admin principal whose own school equals the requested school is
denied with 403 and success false, whatever the store holds; the claim
requires this principal to be admitted and served the records of the
school. -/
theorem schoolRoute_denies_matching_school_admin :
    ∀ s : Store,
      schoolDataEndpoint ("Lincoln High") (some ⟨"u7", "school_admin", "Lincoln High"⟩) s =
        ⟨403, false, some ("Forbidden"), none, none⟩ :=
  fun _ => rfl

/-- Claim C2: a principal whose role is not admin is turned away from both
restricted aggregation endpoints with status 403 and success false, and the
reply does not depend on the store, so the denial happens before any read of
the record store. -/
theorem restricted_aggregations_forbid_non_admin (p : Principal) (hp : p.role ≠ "admin")
    (s1 s2 : Store) :
    adminFilesEndpoint (some p) s1 = adminFilesEndpoint (some p) s2 ∧
    adminFilesEndpoint (some p) s1 = ⟨403, false, some ("Admin access required"), none, none⟩ ∧
    adminUsersEndpoint (some p) s1 = adminUsersEndpoint (some p) s2 ∧
    adminUsersEndpoint (some p) s1 = ⟨403, false, some ("Forbidden"), none, none⟩ := by
  have h1 : adminAuth (some p) = AuthDecision.deny 403 ("Admin access required") := by
    simp [adminAuth, hp]
  have h2 : roleAuth ["admin"] (some p) = AuthDecision.deny 403 ("Forbidden") := by
    simp [roleAuth, hp]
  refine ⟨?_, ?_, ?_, ?_⟩ <;> simp [adminFilesEndpoint, adminUsersEndpoint, h1, h2]

/-- Witness for claim C2 at a school admin of another school and two distinct
stores. -/
theorem restricted_aggregations_forbid_non_admin_witness :
    adminFilesEndpoint (some ⟨"u2", "school_admin", "Eastview"⟩) demoStore =
      ⟨403, false, some ("Admin access required"), none, none⟩ ∧
    adminUsersEndpoint (some ⟨"u2", "school_admin", "Eastview"⟩) demoStore =
      adminUsersEndpoint (some ⟨"u2", "school_admin", "Eastview"⟩) ⟨[], []⟩ := by
  have h := restricted_aggregations_forbid_non_admin ⟨"u2", "school_admin", "Eastview"⟩
    (by decide) demoStore ⟨[], []⟩
  exact ⟨h.2.1, h.2.2.1⟩

/-- Claim C3: an entry of the all files view is exactly the join of a stored
record having a non-empty files list with a stored user carrying the owner id,
so records with an empty files list never appear; and when every record owner
is present in the users collection, every record with a non-empty files list
contributes its joined entry. -/
theorem allFiles_exactly_nonempty_joined (s : Store)
    (href : ∀ r ∈ s.criteria, ∃ u ∈ s.users, u.id = r.userId) :
    (∀ e, e ∈ allFilesAcrossUsers s ↔
      ∃ r ∈ s.criteria, r.files ≠ [] ∧ ∃ u ∈ s.users, u.id = r.userId ∧ e = projectEntry r u) ∧
    (∀ r ∈ s.criteria, r.files ≠ [] →
      ∃ u ∈ s.users, u.id = r.userId ∧ projectEntry r u ∈ allFilesAcrossUsers s) := by
  refine ⟨mem_allFilesAcrossUsers s, ?_⟩
  intro r hr hf
  obtain ⟨u, hu, hid⟩ := href r hr
  exact ⟨u, hu, hid, (mem_allFilesAcrossUsers s _).mpr ⟨r, hr, hf, u, hu, hid, rfl⟩⟩

/-- Witness for claim C3 on the demonstration store: the record with files is
joined to its owner and appears; the empty-files record appears under no
join. -/
theorem allFiles_exactly_nonempty_joined_witness :
    (∃ u ∈ demoStore.users, u.id = rec1.userId ∧
      projectEntry rec1 u ∈ allFilesAcrossUsers demoStore) ∧
    ¬ projectEntry rec3 bobUser ∈ allFilesAcrossUsers demoStore := by
  have h := allFiles_exactly_nonempty_joined demoStore (by decide)
  refine ⟨h.2 rec1 (by decide) (by decide), ?_⟩
  intro hmem
  have := (h.1 (projectEntry rec3 bobUser)).mp hmem
  revert this
  decide

/-- Claim C4: the all files view is sorted by criteria number ascending and
then owner name ascending, and a fixed store yields one fixed output: any two
admin invocations of the endpoint return the same reply. -/
theorem allFiles_sorted_and_deterministic (s : Store) (p1 p2 : Principal)
    (h1 : p1.role = "admin") (h2 : p2.role = "admin") :
    List.Sorted entryLe (allFilesAcrossUsers s) ∧
    adminFilesEndpoint (some p1) s = adminFilesEndpoint (some p2) s := by
  constructor
  · exact List.sorted_insertionSort entryLe _
  · simp [adminFilesEndpoint, adminAuth, h1, h2]

/-- Witness for claim C4 on the demonstration store with two admin
principals. -/
theorem allFiles_sorted_and_deterministic_witness :
    List.Sorted entryLe (allFilesAcrossUsers demoStore) ∧
    adminFilesEndpoint (some ⟨"a1", "admin", "HQ"⟩) demoStore =
      adminFilesEndpoint (some ⟨"a2", "admin", "HQ"⟩) demoStore :=
  allFiles_sorted_and_deterministic demoStore ⟨"a1", "admin", "HQ"⟩ ⟨"a2", "admin", "HQ"⟩ rfl rfl

/-- Claim C5: the inline adminAuth gate of the admin router and the central
roleAuth gate instantiated with the admin role take the same pass or deny
decision on every principal, the absent principal included. -/
theorem adminAuth_extensionally_roleAuth_admin :
    ∀ u : Option Principal, (adminAuth u).passes = (roleAuth ["admin"] u).passes := by
  intro u
  match u with
  | none => rfl
  | some p =>
    by_cases h : p.role = "admin" <;>
      simp [adminAuth, roleAuth, AuthDecision.passes, h]

/-- Claim C6 counterexample: a duplicate key failure, code 11000, whose name
field is MongoError is answered by the connection error branch of the database
middleware with status 500 and a database connection message, not with the 400
duplicate value reply the claim requires for every code 11000 error. -/
theorem duplicate_key_mongoError_answered_500 :
    errorChain ("production") ("t0") false
        ⟨false, "", "MongoError", "E11000 duplicate key error", some 11000, ["email"], [], "tr"⟩ =
      some ⟨500, false, "Database connection error. Please try again.", none, none, none, none⟩ ∧
    (errorChain ("production") ("t0") false
        ⟨false, "", "MongoError", "E11000 duplicate key error", some 11000, ["email"], [], "tr"⟩).map
        (fun r => r.status) ≠ some 400 := by
  exact ⟨by decide, by decide⟩

/-- Claim C6 as amended: a duplicate key error, code 11000, that no earlier
branch of the chain claims — not a multer error, message without the invalid
file type marker, name none of CloudinaryError, MongoError, MongooseError,
MongoNetworkError, ValidationError, CastError — is answered with 400, success
false and the duplicate value message, with no raw error fields echoed. -/
theorem duplicate_key_translated_when_unclaimed (env now : String) (hs : Bool) (e : JsError)
    (hm : e.isMulterError = false)
    (hft : jsIncludes e.message ("Invalid file type") = false)
    (hname : e.name ∉ (["CloudinaryError", "MongoError", "MongooseError",
      "MongoNetworkError", "ValidationError", "CastError"] : List String))
    (hcode : e.code = some 11000) :
    errorChain env now hs e =
      some ⟨400, false, "Duplicate " ++ e.keyValueFields.headD ("undefined") ++ " value entered",
        none, none, none, none⟩ := by
  simp only [List.mem_cons, List.not_mem_nil, or_false, not_or] at hname
  obtain ⟨n1, n2, n3, n4, n5, n6⟩ := hname
  simp [errorChain, multerStep, cloudinaryStep, databaseStep, hm, hft, hcode,
    n1, n2, n3, n4, n5, n6]

/-- Witness for the amended claim C6 at a modern driver duplicate key
error. -/
theorem duplicate_key_translated_when_unclaimed_witness :
    errorChain ("production") ("t1") false
        ⟨false, "", "MongoServerError", "E11000 dup key", some 11000, ["email"], [], "tr"⟩ =
      some ⟨400, false,
        "Duplicate " ++
          (JsError.mk false "" "MongoServerError" "E11000 dup key" (some 11000) ["email"] [] "tr").keyValueFields.headD ("undefined") ++
          " value entered", none, none, none, none⟩ :=
  duplicate_key_translated_when_unclaimed ("production") ("t1") false
    ⟨false, "", "MongoServerError", "E11000 dup key", some 11000, ["email"], [], "tr"⟩
    rfl (by decide) (by decide) rfl

/-- Claim C7: an error named JsonWebTokenError or TokenExpiredError — hence
not a multer error, carrying no duplicate key code and no invalid file type
marker — is answered by the JWT middleware with status 401 and success false,
never a success or 403 reply. -/
theorem jwt_errors_answered_401 (env now : String) (hs : Bool) (e : JsError)
    (hname : e.name = "JsonWebTokenError" ∨ e.name = "TokenExpiredError")
    (hm : e.isMulterError = false)
    (hft : jsIncludes e.message ("Invalid file type") = false)
    (hcode : e.code ≠ some 11000) :
    (errorChain env now hs e).map (fun r => (r.status, r.success)) = some (401, false) := by
  rcases hname with h | h <;>
    simp [errorChain, multerStep, cloudinaryStep, databaseStep, jwtStep, hm, hft, hcode, h]

/-- Witness for claim C7 at an expired token error. -/
theorem jwt_errors_answered_401_witness :
    (errorChain ("production") ("t2") false
        ⟨false, "", "TokenExpiredError", "jwt expired", none, [], [], "tr"⟩).map
      (fun r => (r.status, r.success)) = some (401, false) :=
  jwt_errors_answered_401 ("production") ("t2") false
    ⟨false, "", "TokenExpiredError", "jwt expired", none, [], [], "tr"⟩
    (Or.inr rfl) rfl (by decide) (by decide)

/-- Claim C8: an error claimed by no earlier middleware falls through to the
final handler, which replies 500, success false, Internal server error; and
outside the development environment the reply carries no diagnostic detail, so
two such errors with different internals yield the same reply at the same
timestamp. -/
theorem unclassified_errors_collapse_production (env now : String) (e1 e2 : JsError)
    (h1m : multerStep e1 = none) (h1c : cloudinaryStep e1 = none)
    (h1d : databaseStep e1 = none) (h1j : jwtStep e1 = none)
    (h2m : multerStep e2 = none) (h2c : cloudinaryStep e2 = none)
    (h2d : databaseStep e2 = none) (h2j : jwtStep e2 = none)
    (henv : env ≠ "development") :
    errorChain env now false e1 =
      some ⟨500, false, "Internal server error", some now, none, none, none⟩ ∧
    errorChain env now false e1 = errorChain env now false e2 := by
  simp [errorChain, genericStep, h1m, h1c, h1d, h1j, h2m, h2c, h2d, h2j, henv]

/-- Witness for claim C8 at two unclassified errors differing in name, message
and stack. -/
theorem unclassified_errors_collapse_production_witness :
    errorChain ("production") ("t3") false ⟨false, "", "TypeError", "boom one", none, [], [], "sA"⟩ =
      some ⟨500, false, "Internal server error", some ("t3"), none, none, none⟩ ∧
    errorChain ("production") ("t3") false ⟨false, "", "TypeError", "boom one", none, [], [], "sA"⟩ =
      errorChain ("production") ("t3") false ⟨false, "", "ReferenceError", "boom two", none, [], [], "sB"⟩ :=
  unclassified_errors_collapse_production ("production") ("t3")
    ⟨false, "", "TypeError", "boom one", none, [], [], "sA"⟩
    ⟨false, "", "ReferenceError", "boom two", none, [], [], "sB"⟩
    (by decide) (by decide) (by decide) (by decide)
    (by decide) (by decide) (by decide) (by decide) (by decide)

/-- Claim C9: criteria router dispatch sends a GET for admin/users to the
users aggregation handler and a GET for school with any non-empty school
segment to the school handler, never to the catch-all single criteria
handler. -/
theorem criteria_dispatch_before_catch_all (seg : String) (hseg : seg ≠ "") :
    dispatch Method.get ["admin", "users"] = some Handler.getAllUsersWithData ∧
    dispatch Method.get ["school", seg] = some Handler.getSchoolData := by
  have hb : (seg = "") = False := by simp [hseg]
  constructor
  · decide
  · simp [dispatch, criteriaRoutes, List.find?, matchPath, hb]

/-- Witness for claim C9 at a concrete school segment. -/
theorem criteria_dispatch_before_catch_all_witness :
    dispatch Method.get ["admin", "users"] = some Handler.getAllUsersWithData ∧
    dispatch Method.get ["school", "Lincoln High"] = some Handler.getSchoolData :=
  criteria_dispatch_before_catch_all ("Lincoln High") (by decide)

/-- Claim C10: with no principal attached the admin files gate denies with 403
and success false rather than failing, and the reply is the same for every
store, so the aggregation handler never runs without a principal. -/
theorem adminFiles_absent_principal_denied :
    ∀ s1 s2 : Store,
      adminFilesEndpoint none s1 = ⟨403, false, some ("Admin access required"), none, none⟩ ∧
      adminFilesEndpoint none s1 = adminFilesEndpoint none s2 :=
  fun _ _ => ⟨rfl, rfl⟩

end Naac
